import Mathlib

/-!
Shallow embedding of the financial-ledger domain model of the budget-cli
(FinanCLI) repository: the `Money` value object, the `Account`, `CreditCard`,
`Bill`, `Transaction` and `CreditCardInvoice` entities, and the
transaction-creation orchestration workflow of the application layer.

Monetary amounts are `float64` dollars in the Go source, always produced by
`NewMoney`, which rounds to two decimal places with `math.Round`
(round half away from zero).  The embedding models amounts as exact rationals
with the same round-to-cents constructor; the invariant that every `Money`
ever constructed holds a whole number of cents is the predicate
`Money.IsCents` below.  Identifiers (`uuid.UUID`) are modelled as naturals,
wall-clock instants (`time.Time`) as integers; `CreatedAt`/`UpdatedAt`
bookkeeping fields, names and descriptions, which no claim mentions, are
omitted from the records.  Methods that mutate a Go receiver in place and
return an `error` are modelled as functions returning the new record together
with a success flag (`true` = `nil` error); an early `return err` in the Go
body yields the record as mutated so far, exactly as the in-place Go code
leaves it.
-/

set_option maxRecDepth 4000

namespace FinanCLI

/-- Go's `math.Round`: round to the nearest integer, ties away from zero. -/
def roundAway (q : ℚ) : ℤ :=
  if 0 ≤ q then ⌊q + 1 / 2⌋ else ⌈q - 1 / 2⌉

/-- The rounding performed by `NewMoney`: `math.Round(amount*100) / 100`. -/
def roundCents (q : ℚ) : ℚ :=
  (roundAway (q * 100) : ℚ) / 100

/-- `valueobject.Money`: an amount tagged with a currency code. -/
structure Money where
  amount : ℚ
  currency : String
deriving DecidableEq, Repr

/-- `valueobject.NewMoney`: stores the amount rounded to cents and the
currency code verbatim. -/
def NewMoney (amount : ℚ) (currency : String) : Money :=
  ⟨roundCents amount, currency⟩

/-- `Money.Add`: fails (`none`) on mismatched currencies, else re-rounds the
sum via `NewMoney`. -/
def Money.Add (m other : Money) : Option Money :=
  if m.currency ≠ other.currency then none
  else some (NewMoney (m.amount + other.amount) m.currency)

/-- `Money.Subtract`: fails (`none`) on mismatched currencies, else re-rounds
the difference via `NewMoney`. -/
def Money.Subtract (m other : Money) : Option Money :=
  if m.currency ≠ other.currency then none
  else some (NewMoney (m.amount - other.amount) m.currency)

/-- `Money.Multiply`: scales the amount by a factor, re-rounding. -/
def Money.Multiply (m : Money) (factor : ℚ) : Money :=
  NewMoney (m.amount * factor) m.currency

/-- `Money.IsNegative`. -/
def Money.IsNegative (m : Money) : Bool :=
  decide (m.amount < 0)

/-- `Money.IsZero`. -/
def Money.IsZero (m : Money) : Bool :=
  decide (m.amount = 0)

/-- `Money.Equals`: exact comparison of amount and currency. -/
def Money.Equals (m other : Money) : Bool :=
  decide (m.amount = other.amount) && decide (m.currency = other.currency)

/-- The `Money` representation invariant: the amount is a whole number of
cents.  Every value produced by `NewMoney` satisfies it. -/
def Money.IsCents (m : Money) : Prop :=
  (m.amount * 100).den = 1

instance (m : Money) : Decidable m.IsCents := by
  unfold Money.IsCents; infer_instance

/-- Rounding an integer is the identity. -/
theorem roundAway_intCast (n : ℤ) : roundAway (n : ℚ) = n := by
  unfold roundAway
  split
  · rw [add_comm, Int.floor_add_int]
    norm_num
  · rw [sub_eq_add_neg, add_comm, Int.ceil_add_int]
    norm_num

/-- A rational that is already a whole number of cents is unchanged by
`roundCents`. -/
theorem roundCents_eq_self {q : ℚ} (h : (q * 100).den = 1) : roundCents q = q := by
  have hq : ((q * 100).num : ℚ) = q * 100 := by
    rw [← Rat.den_eq_one_iff]; exact h
  unfold roundCents
  rw [← hq, roundAway_intCast, hq]
  field_simp

theorem NewMoney_isCents (q : ℚ) (c : String) : (NewMoney q c).IsCents := by
  show ((roundAway (q * 100) : ℚ) / 100 * 100).den = 1
  rw [div_mul_cancel₀ _ (by norm_num : (100 : ℚ) ≠ 0)]
  exact Rat.den_intCast _

theorem isCents_add {a b : ℚ} (ha : (a * 100).den = 1) (hb : (b * 100).den = 1) :
    ((a + b) * 100).den = 1 := by
  have ha' : ((a * 100).num : ℚ) = a * 100 := by rw [← Rat.den_eq_one_iff]; exact ha
  have hb' : ((b * 100).num : ℚ) = b * 100 := by rw [← Rat.den_eq_one_iff]; exact hb
  have : (a + b) * 100 = (((a * 100).num + (b * 100).num : ℤ) : ℚ) := by
    push_cast [ha', hb']; ring
  rw [this]
  exact Rat.den_intCast _

theorem isCents_sub {a b : ℚ} (ha : (a * 100).den = 1) (hb : (b * 100).den = 1) :
    ((a - b) * 100).den = 1 := by
  have ha' : ((a * 100).num : ℚ) = a * 100 := by rw [← Rat.den_eq_one_iff]; exact ha
  have hb' : ((b * 100).num : ℚ) = b * 100 := by rw [← Rat.den_eq_one_iff]; exact hb
  have : (a - b) * 100 = (((a * 100).num - (b * 100).num : ℤ) : ℚ) := by
    push_cast [ha', hb']; ring
  rw [this]
  exact Rat.den_intCast _

/-- On same-currency cent amounts, `Add` succeeds and computes the exact sum
(the re-rounding inside `NewMoney` is the identity there). -/
theorem Money.Add_eq_of_cents {m o : Money} (hm : m.IsCents) (ho : o.IsCents)
    (hc : m.currency = o.currency) :
    m.Add o = some ⟨m.amount + o.amount, m.currency⟩ := by
  unfold Money.Add NewMoney
  rw [if_neg (by simp [hc])]
  rw [roundCents_eq_self (isCents_add hm ho)]

/-- On same-currency cent amounts, `Subtract` succeeds and computes the exact
difference. -/
theorem Money.Subtract_eq_of_cents {m o : Money} (hm : m.IsCents) (ho : o.IsCents)
    (hc : m.currency = o.currency) :
    m.Subtract o = some ⟨m.amount - o.amount, m.currency⟩ := by
  unfold Money.Subtract NewMoney
  rw [if_neg (by simp [hc])]
  rw [roundCents_eq_self (isCents_sub hm ho)]

/-- Any successful `Add` yields a cent amount in the left operand's currency,
and succeeds only when the currencies agree. -/
theorem Money.Add_some {m o r : Money} (h : m.Add o = some r) :
    r.currency = m.currency ∧ r.IsCents ∧ m.currency = o.currency := by
  unfold Money.Add at h
  by_cases hc : m.currency = o.currency
  · rw [if_neg (by simp [hc])] at h
    cases h
    exact ⟨rfl, NewMoney_isCents _ _, hc⟩
  · rw [if_pos hc] at h
    cases h

/-- Any successful `Subtract` yields a cent amount in the left operand's
currency, and succeeds only when the currencies agree. -/
theorem Money.Subtract_some {m o r : Money} (h : m.Subtract o = some r) :
    r.currency = m.currency ∧ r.IsCents ∧ m.currency = o.currency := by
  unfold Money.Subtract at h
  by_cases hc : m.currency = o.currency
  · rw [if_neg (by simp [hc])] at h
    cases h
    exact ⟨rfl, NewMoney_isCents _ _, hc⟩
  · rw [if_pos hc] at h
    cases h

/-! ## Account (`entity.Account`) -/

inductive AccountType where
  | checking
  | savings
  | investment
deriving DecidableEq, Repr

/-- `entity.Account`; the Go field `Type` is rendered `accountType` because
`Type` is reserved in Lean.  ID, name, description and timestamps are
omitted. -/
structure Account where
  accountType : AccountType
  Balance : Money
deriving DecidableEq, Repr

/-- `entity.NewAccount` (ID, name, description and timestamps omitted). -/
def NewAccount (accountType : AccountType) (initialBalance : Money) : Account :=
  ⟨accountType, initialBalance⟩

/-- `Account.Deposit`: `balance = balance.Add(amount)`, failing only on a
currency mismatch. -/
def Account.Deposit (a : Account) (amount : Money) : Account × Bool :=
  match a.Balance.Add amount with
  | none => (a, false)
  | some newBalance => ({ a with Balance := newBalance }, true)

/-- `Account.Withdraw`: computes the new balance; fails with insufficient
funds when it is negative and the account is not a checking account. -/
def Account.Withdraw (a : Account) (amount : Money) : Account × Bool :=
  match a.Balance.Subtract amount with
  | none => (a, false)
  | some newBalance =>
    if newBalance.IsNegative ∧ a.accountType ≠ AccountType.checking then (a, false)
    else ({ a with Balance := newBalance }, true)

/-! ## CreditCard (`entity.CreditCard`) -/

/-- `entity.CreditCard` (ID, account link, name and timestamps omitted). -/
structure CreditCard where
  LastFourDigits : String
  CreditLimit : Money
  CurrentBalance : Money
  DueDay : ℤ
deriving DecidableEq, Repr

/-- `entity.NewCreditCard`: validates the due day and the card-digit length,
and starts the balance at zero in the limit's currency. -/
def NewCreditCard (lastFourDigits : String) (creditLimit : Money) (dueDay : ℤ) :
    Option CreditCard :=
  if dueDay < 1 ∨ dueDay > 31 then none
  else if lastFourDigits.length ≠ 4 then none
  else some ⟨lastFourDigits, creditLimit, NewMoney 0 creditLimit.currency, dueDay⟩

/-- `CreditCard.Charge`: adds the amount to the balance, rejects the charge
when the available credit `CreditLimit - newBalance` would be negative. -/
def CreditCard.Charge (c : CreditCard) (amount : Money) : CreditCard × Bool :=
  match c.CurrentBalance.Add amount with
  | none => (c, false)
  | some newBalance =>
    match c.CreditLimit.Subtract newBalance with
    | none => (c, false)
    | some availableCredit =>
      if availableCredit.IsNegative then (c, false)
      else ({ c with CurrentBalance := newBalance }, true)

/-- `CreditCard.Payment`: subtracts the amount, clamping a negative result to
zero. -/
def CreditCard.Payment (c : CreditCard) (amount : Money) : CreditCard × Bool :=
  match c.CurrentBalance.Subtract amount with
  | none => (c, false)
  | some newBalance =>
    if newBalance.IsNegative then
      ({ c with CurrentBalance := NewMoney 0 c.CurrentBalance.currency }, true)
    else ({ c with CurrentBalance := newBalance }, true)

/-- Folding a list of charges over a card, keeping the post-call state whether
each charge succeeded or failed, as a Go caller issuing the calls in order
would. -/
def runCharges (c : CreditCard) (amounts : List Money) : CreditCard :=
  amounts.foldl (fun c a => (c.Charge a).1) c

/-! ## Bill (`entity.Bill`) -/

inductive BillStatus where
  | Open
  | Closed
  | Paid
  | Overdue
deriving DecidableEq, Repr

/-- `entity.Bill` (ID, name, description and timestamps omitted; dates are
integers). -/
structure Bill where
  StartDate : ℤ
  EndDate : ℤ
  DueDate : ℤ
  TotalAmount : Money
  PaidAmount : Money
  Status : BillStatus
deriving DecidableEq, Repr

/-- `entity.NewBill`: validates the date ordering and starts the paid amount
at zero in the total's currency. -/
def NewBill (startDate endDate dueDate : ℤ) (totalAmount : Money) : Option Bill :=
  if endDate < startDate then none
  else if dueDate < endDate then none
  else some ⟨startDate, endDate, dueDate, totalAmount,
    NewMoney 0 totalAmount.currency, BillStatus.Open⟩

/-- `Bill.updateStatus`: `paid` on exact equality of paid and total amounts,
else `overdue` when past the due date, else unchanged.  `now` stands for the
`time.Now()` call in the source. -/
def Bill.updateStatus (b : Bill) (now : ℤ) : Bill :=
  if b.PaidAmount.Equals b.TotalAmount then { b with Status := BillStatus.Paid }
  else if now > b.DueDate ∧ ¬(b.PaidAmount.Equals b.TotalAmount = true) then
    { b with Status := BillStatus.Overdue }
  else b

/-- `Bill.AddPayment`: accumulates the payment (no cap), then runs the status
update rule. -/
def Bill.AddPayment (b : Bill) (amount : Money) (now : ℤ) : Bill × Bool :=
  match b.PaidAmount.Add amount with
  | none => (b, false)
  | some newPaidAmount =>
    (Bill.updateStatus { b with PaidAmount := newPaidAmount } now, true)

/-- `Bill.GetRemainingAmount`: `TotalAmount.Subtract(PaidAmount)`. -/
def Bill.GetRemainingAmount (b : Bill) : Option Money :=
  b.TotalAmount.Subtract b.PaidAmount

/-- `Bill.IsFullyPaid`: exact equality of paid and total amounts. -/
def Bill.IsFullyPaid (b : Bill) : Bool :=
  b.PaidAmount.Equals b.TotalAmount

/-! ## CreditCardInvoice (`entity.CreditCardInvoice`) -/

inductive InvoiceStatus where
  | Open
  | Closed
  | Paid
  | Overdue
deriving DecidableEq, Repr

/-- `entity.CreditCardInvoice` (ID, card link, reference month, dates and
timestamps omitted: no claim mentions them). -/
structure CreditCardInvoice where
  PreviousBalance : Money
  TotalCharges : Money
  TotalPayments : Money
  ClosingBalance : Money
  Status : InvoiceStatus
  TransactionIDs : List ℕ
deriving DecidableEq, Repr

/-- `entity.NewCreditCardInvoice`, restricted to the balance bookkeeping (the
date-ordering and reference-month validations of the source concern only the
omitted fields): zero charges and payments in the previous balance's
currency, closing balance initialised to the previous balance, status open,
no transactions. -/
def NewCreditCardInvoice (previousBalance : Money) : CreditCardInvoice :=
  ⟨previousBalance, NewMoney 0 previousBalance.currency,
    NewMoney 0 previousBalance.currency, previousBalance,
    InvoiceStatus.Open, []⟩

/-- `recalculateBalance`: `ClosingBalance = PreviousBalance + TotalCharges -
TotalPayments`; `none` when a currency mismatch makes a step fail (the
receiver is then left unassigned, as in the source). -/
def CreditCardInvoice.recalculateBalance (i : CreditCardInvoice) :
    Option CreditCardInvoice :=
  match i.PreviousBalance.Add i.TotalCharges with
  | none => none
  | some balanceWithCharges =>
    match balanceWithCharges.Subtract i.TotalPayments with
    | none => none
    | some closingBalance => some { i with ClosingBalance := closingBalance }

/-- `CreditCardInvoice.AddTransaction`: requires the open status, appends the
transaction ID, adds the amount to the payments or charges total, then
recalculates the closing balance.  An error after the append leaves the
appended ID in place, exactly as the in-place Go mutation does. -/
def CreditCardInvoice.AddTransaction (i : CreditCardInvoice) (transactionID : ℕ)
    (amount : Money) (isPayment : Bool) : CreditCardInvoice × Bool :=
  if i.Status ≠ InvoiceStatus.Open then (i, false)
  else
    let i1 := { i with TransactionIDs := i.TransactionIDs ++ [transactionID] }
    if isPayment then
      match i1.TotalPayments.Add amount with
      | none => (i1, false)
      | some newPayments =>
        let i2 := { i1 with TotalPayments := newPayments }
        match i2.recalculateBalance with
        | none => (i2, false)
        | some i3 => (i3, true)
    else
      match i1.TotalCharges.Add amount with
      | none => (i1, false)
      | some newCharges =>
        let i2 := { i1 with TotalCharges := newCharges }
        match i2.recalculateBalance with
        | none => (i2, false)
        | some i3 => (i3, true)

/-- `CreditCardInvoice.RemoveTransaction`: requires the open status, fails if
the ID is absent, else removes every occurrence of the ID, subtracts the
amount from the payments or charges total, and recalculates.  An error after
the list reassignment leaves the ID removed, as in the source. -/
def CreditCardInvoice.RemoveTransaction (i : CreditCardInvoice) (transactionID : ℕ)
    (amount : Money) (isPayment : Bool) : CreditCardInvoice × Bool :=
  if i.Status ≠ InvoiceStatus.Open then (i, false)
  else
    let newTransactionIDs := i.TransactionIDs.filter (fun id => id ≠ transactionID)
    if ¬ i.TransactionIDs.contains transactionID then (i, false)
    else
      let i1 := { i with TransactionIDs := newTransactionIDs }
      if isPayment then
        match i1.TotalPayments.Subtract amount with
        | none => (i1, false)
        | some newPayments =>
          let i2 := { i1 with TotalPayments := newPayments }
          match i2.recalculateBalance with
          | none => (i2, false)
          | some i3 => (i3, true)
      else
        match i1.TotalCharges.Subtract amount with
        | none => (i1, false)
        | some newCharges =>
          let i2 := { i1 with TotalCharges := newCharges }
          match i2.recalculateBalance with
          | none => (i2, false)
          | some i3 => (i3, true)

/-- One call of the invoice mutation interface: an `AddTransaction` or a
`RemoveTransaction` with its arguments. -/
inductive InvoiceOp where
  | add (transactionID : ℕ) (amount : Money) (isPayment : Bool)
  | remove (transactionID : ℕ) (amount : Money) (isPayment : Bool)
deriving DecidableEq, Repr

/-- Apply one call, keeping the post-call state whether it succeeded or
failed. -/
def applyInvoiceOp (i : CreditCardInvoice) (op : InvoiceOp) : CreditCardInvoice :=
  match op with
  | InvoiceOp.add id amt p => (i.AddTransaction id amt p).1
  | InvoiceOp.remove id amt p => (i.RemoveTransaction id amt p).1

/-- Run a sequence of `AddTransaction`/`RemoveTransaction` calls in order. -/
def runInvoiceOps (i : CreditCardInvoice) (ops : List InvoiceOp) : CreditCardInvoice :=
  ops.foldl applyInvoiceOp i

/-! ## Transaction (`entity.Transaction`) -/

inductive TransactionType where
  | debit
  | credit
deriving DecidableEq, Repr

/-- `entity.SharedExpense`. -/
structure SharedExpense where
  PersonID : ℕ
  Amount : Money
  Percentage : ℚ
deriving DecidableEq, Repr

/-- `entity.Transaction`; the Go field `Type` is rendered `txnType`
(`Type` is reserved in Lean).  ID, category, description, date and
timestamps are omitted. -/
structure Transaction where
  AccountID : Option ℕ
  CreditCardID : Option ℕ
  CreditCardInvoiceID : Option ℕ
  BillID : Option ℕ
  txnType : TransactionType
  Amount : Money
  SharedWith : List SharedExpense
deriving DecidableEq, Repr

/-- `entity.NewTransaction`: stores both identifier arguments verbatim (the
entity itself performs no mutual-exclusion check), with no invoice, bill or
shares. -/
def NewTransaction (accountID creditCardID : Option ℕ)
    (transactionType : TransactionType) (amount : Money) : Transaction :=
  ⟨accountID, creditCardID, none, none, transactionType, amount, []⟩

/-- `Transaction.SplitEqually`: fails on an empty person list; else replaces
the shares with one share of `50 / n` percent per person, each share amount
being the transaction amount multiplied (with `Money.Multiply`'s rounding) by
`(50 / n) / 100`. -/
def Transaction.SplitEqually (t : Transaction) (personIDs : List ℕ) :
    Transaction × Bool :=
  if personIDs.length = 0 then (t, false)
  else
    let perPersonPercentage : ℚ := 50 / (personIDs.length : ℚ)
    let shares := personIDs.map fun personID =>
      SharedExpense.mk personID (t.Amount.Multiply (perPersonPercentage / 100))
        perPersonPercentage
    ({ t with SharedWith := shares }, true)

/-- `Transaction.GetPersonalAmount`: the amount multiplied by the complement
of the accumulated shared percentage.  The Go accumulation loop is the list
sum, in order. -/
def Transaction.GetPersonalAmount (t : Transaction) : Money :=
  let totalSharedPercentage := (t.SharedWith.map SharedExpense.Percentage).sum
  t.Amount.Multiply ((100 - totalSharedPercentage) / 100)

/-! ## Orchestration (`usecase.TransactionUseCase.CreateTransaction`)

The use case reads and writes entities through repository interfaces backed
by MongoDB.  The repository environment is modelled as finder functions plus
outcome oracles for the store writes; the two best-effort sub-workflows
`assignToInvoice` and `autoAssignToBills` (whose bodies are further repository
I/O around the entity calls already embedded above) are modelled as oracles
delivering either an error or the identifier they would assign.  What the
embedding translates faithfully is the control flow of `CreateTransaction`
itself: which step failures abort the workflow and which are swallowed, and
which store writes have been committed when it returns. -/

structure Env where
  findAccount : ℕ → Option Account
  findCard : ℕ → Option CreditCard
  accountUpdateOk : Bool
  cardUpdateOk : Bool
  hasInvoiceRepo : Bool
  invoiceAssign : Except String ℕ
  billAssign : Except String (Option ℕ)
  txnCreateOk : Bool

/-- The observable outcome of one `CreateTransaction` call: the returned
value or error, and the store writes that were committed along the way
(`none` = the corresponding repository update/insert was never performed or
failed). -/
structure CreateOutcome where
  result : Except String Transaction
  savedAccount : Option Account
  savedCard : Option CreditCard
  persistedTxn : Option Transaction
deriving Repr

/-- Steps (4)-(5) of `CreateTransaction`: bill auto-assignment (failure
swallowed with a logged warning) and the final repository insert. -/
def createAfterCard (env : Env) (savedAccount : Option Account)
    (savedCard : Option CreditCard) (transaction : Transaction) : CreateOutcome :=
  let transaction2 :=
    match env.billAssign with
    | Except.error _ => transaction
    | Except.ok none => transaction
    | Except.ok (some billID) => { transaction with BillID := some billID }
  if env.txnCreateOk then
    ⟨Except.ok transaction2, savedAccount, savedCard, some transaction2⟩
  else
    ⟨Except.error "failed to create transaction", savedAccount, savedCard, none⟩

/-- Step (3) of `CreateTransaction`: when a card identifier is supplied, look
the card up, charge it (debit) or pay it (credit), persist the card, then
best-effort assign the transaction to an invoice (failure swallowed with a
logged warning). -/
def createCardStep (env : Env) (savedAccount : Option Account)
    (creditCardID : Option ℕ) (transaction : Transaction) (money : Money)
    (transactionType : TransactionType) : CreateOutcome :=
  match creditCardID with
  | none => createAfterCard env savedAccount none transaction
  | some cid =>
    match env.findCard cid with
    | none => ⟨Except.error "credit card not found", savedAccount, none, none⟩
    | some card =>
      let step :=
        if transactionType = TransactionType.debit then card.Charge money
        else card.Payment money
      if step.2 = false then
        ⟨Except.error "failed to charge or pay credit card", savedAccount, none, none⟩
      else if env.cardUpdateOk = false then
        ⟨Except.error "failed to update credit card", savedAccount, none, none⟩
      else
        let transaction1 :=
          if env.hasInvoiceRepo then
            match env.invoiceAssign with
            | Except.error _ => transaction
            | Except.ok invoiceID =>
              { transaction with CreditCardInvoiceID := some invoiceID }
          else transaction
        createAfterCard env savedAccount (some step.1) transaction1

/-- `usecase.TransactionUseCase.CreateTransaction`: builds the money value and
the transaction, then runs the account step (2), the card step (3), the bill
step (4) and the insert (5) in the source's order.  Neither branch guard
checks that exactly one of the two identifiers is supplied. -/
def CreateTransaction (env : Env) (accountID creditCardID : Option ℕ)
    (transactionType : TransactionType) (amount : ℚ) (currency : String) :
    CreateOutcome :=
  let money := NewMoney amount currency
  let transaction := NewTransaction accountID creditCardID transactionType money
  match accountID with
  | none => createCardStep env none creditCardID transaction money transactionType
  | some aid =>
    match env.findAccount aid with
    | none => ⟨Except.error "account not found", none, none, none⟩
    | some account =>
      let step :=
        if transactionType = TransactionType.debit then account.Withdraw money
        else account.Deposit money
      if step.2 = false then
        ⟨Except.error "failed to withdraw or deposit", none, none, none⟩
      else if env.accountUpdateOk = false then
        ⟨Except.error "failed to update account", none, none, none⟩
      else createCardStep env (some step.1) creditCardID transaction money transactionType

/-! ## Invoice well-formedness and its preservation -/

/-- Well-formedness of an invoice's balance bookkeeping, as established by the
constructor: all four money fields hold whole cents in one currency and the
closing balance equals previous balance plus charges minus payments. -/
def InvoiceWF (i : CreditCardInvoice) : Prop :=
  i.PreviousBalance.IsCents ∧ i.TotalCharges.IsCents ∧ i.TotalPayments.IsCents ∧
  i.ClosingBalance.IsCents ∧
  i.TotalCharges.currency = i.PreviousBalance.currency ∧
  i.TotalPayments.currency = i.PreviousBalance.currency ∧
  i.ClosingBalance.currency = i.PreviousBalance.currency ∧
  i.ClosingBalance.amount =
    i.PreviousBalance.amount + i.TotalCharges.amount - i.TotalPayments.amount

instance (i : CreditCardInvoice) : Decidable (InvoiceWF i) := by
  unfold InvoiceWF; infer_instance

theorem NewMoney_zero (c : String) : NewMoney 0 c = ⟨0, c⟩ := by
  unfold NewMoney
  congr 1
  exact roundCents_eq_self (by norm_num)

theorem NewCreditCardInvoice_wf {pb : Money} (h : pb.IsCents) :
    InvoiceWF (NewCreditCardInvoice pb) := by
  have hz : (NewMoney 0 pb.currency).amount = 0 := by rw [NewMoney_zero]
  exact ⟨h, NewMoney_isCents _ _, NewMoney_isCents _ _, h, rfl, rfl, rfl, by simp [NewCreditCardInvoice, hz]⟩

/-- On an invoice whose money fields are same-currency cents,
`recalculateBalance` succeeds, computes the exact identity, and the result is
well-formed. -/
theorem recalculateBalance_wf (pb tc tp cb : Money) (st : InvoiceStatus)
    (ids : List ℕ) (hp : pb.IsCents) (hc : tc.IsCents) (hpy : tp.IsCents)
    (hcc : tc.currency = pb.currency) (hpc : tp.currency = pb.currency) :
    (CreditCardInvoice.mk pb tc tp cb st ids).recalculateBalance =
      some (CreditCardInvoice.mk pb tc tp
        (Money.mk (pb.amount + tc.amount - tp.amount) pb.currency) st ids) ∧
    InvoiceWF (CreditCardInvoice.mk pb tc tp
        (Money.mk (pb.amount + tc.amount - tp.amount) pb.currency) st ids) := by
  have h1 : Money.Add pb tc = some ⟨pb.amount + tc.amount, pb.currency⟩ :=
    Money.Add_eq_of_cents hp hc hcc.symm
  have h2 : Money.Subtract ⟨pb.amount + tc.amount, pb.currency⟩ tp =
      some ⟨pb.amount + tc.amount - tp.amount, pb.currency⟩ :=
    Money.Subtract_eq_of_cents (isCents_add hp hc) hpy hpc.symm
  constructor
  · simp only [CreditCardInvoice.recalculateBalance, h1, h2]
  · exact ⟨hp, hc, hpy, isCents_sub (isCents_add hp hc) hpy, hcc, hpc, rfl, rfl⟩

/-- Changing only the tracked transaction-ID list preserves well-formedness. -/
theorem InvoiceWF_setIDs {i : CreditCardInvoice} (h : InvoiceWF i) (ids : List ℕ) :
    InvoiceWF { i with TransactionIDs := ids } := h

/-- `AddTransaction` preserves well-formedness, whether it succeeds or
fails. -/
theorem InvoiceWF.addTransaction {i : CreditCardInvoice} (h : InvoiceWF i)
    (transactionID : ℕ) (amount : Money) (isPayment : Bool) :
    InvoiceWF (i.AddTransaction transactionID amount isPayment).1 := by
  obtain ⟨h1, h2, h3, h4, h5, h6, h7, h8⟩ := h
  unfold CreditCardInvoice.AddTransaction
  by_cases hs : i.Status ≠ InvoiceStatus.Open
  · rw [if_pos hs]
    exact ⟨h1, h2, h3, h4, h5, h6, h7, h8⟩
  · rw [if_neg hs]
    by_cases hp : isPayment
    · rw [if_pos hp]
      rcases hadd : (Money.Add i.TotalPayments amount) with _ | newPayments
      · simp only [hadd]
        exact ⟨h1, h2, h3, h4, h5, h6, h7, h8⟩
      · simp only [hadd]
        obtain ⟨hcur, hcent, _⟩ := Money.Add_some hadd
        obtain ⟨hrec, hwf⟩ := recalculateBalance_wf i.PreviousBalance
          i.TotalCharges newPayments i.ClosingBalance i.Status
          (i.TransactionIDs ++ [transactionID]) h1 h2 hcent h5 (hcur.trans h6)
        simp only [hrec]
        exact hwf
    · rw [if_neg hp]
      rcases hadd : (Money.Add i.TotalCharges amount) with _ | newCharges
      · simp only [hadd]
        exact ⟨h1, h2, h3, h4, h5, h6, h7, h8⟩
      · simp only [hadd]
        obtain ⟨hcur, hcent, _⟩ := Money.Add_some hadd
        obtain ⟨hrec, hwf⟩ := recalculateBalance_wf i.PreviousBalance
          newCharges i.TotalPayments i.ClosingBalance i.Status
          (i.TransactionIDs ++ [transactionID]) h1 hcent h3 (hcur.trans h5) h6
        simp only [hrec]
        exact hwf

/-- `RemoveTransaction` preserves well-formedness, whether it succeeds or
fails. -/
theorem InvoiceWF.removeTransaction {i : CreditCardInvoice} (h : InvoiceWF i)
    (transactionID : ℕ) (amount : Money) (isPayment : Bool) :
    InvoiceWF (i.RemoveTransaction transactionID amount isPayment).1 := by
  obtain ⟨h1, h2, h3, h4, h5, h6, h7, h8⟩ := h
  unfold CreditCardInvoice.RemoveTransaction
  by_cases hs : i.Status ≠ InvoiceStatus.Open
  · rw [if_pos hs]
    exact ⟨h1, h2, h3, h4, h5, h6, h7, h8⟩
  · rw [if_neg hs]
    by_cases hf : ¬ i.TransactionIDs.contains transactionID
    · rw [if_pos hf]
      exact ⟨h1, h2, h3, h4, h5, h6, h7, h8⟩
    · rw [if_neg hf]
      by_cases hp : isPayment
      · rw [if_pos hp]
        rcases hsub : (Money.Subtract i.TotalPayments amount) with _ | newPayments
        · simp only [hsub]
          exact ⟨h1, h2, h3, h4, h5, h6, h7, h8⟩
        · simp only [hsub]
          obtain ⟨hcur, hcent, _⟩ := Money.Subtract_some hsub
          obtain ⟨hrec, hwf⟩ := recalculateBalance_wf i.PreviousBalance
            i.TotalCharges newPayments i.ClosingBalance i.Status
            (i.TransactionIDs.filter (fun id => id ≠ transactionID))
            h1 h2 hcent h5 (hcur.trans h6)
          simp only [hrec]
          exact hwf
      · rw [if_neg hp]
        rcases hsub : (Money.Subtract i.TotalCharges amount) with _ | newCharges
        · simp only [hsub]
          exact ⟨h1, h2, h3, h4, h5, h6, h7, h8⟩
        · simp only [hsub]
          obtain ⟨hcur, hcent, _⟩ := Money.Subtract_some hsub
          obtain ⟨hrec, hwf⟩ := recalculateBalance_wf i.PreviousBalance
            newCharges i.TotalPayments i.ClosingBalance i.Status
            (i.TransactionIDs.filter (fun id => id ≠ transactionID))
            h1 hcent h3 (hcur.trans h5) h6
          simp only [hrec]
          exact hwf

/-- Any single `AddTransaction`/`RemoveTransaction` call preserves
well-formedness. -/
theorem InvoiceWF.applyOp {i : CreditCardInvoice} (h : InvoiceWF i)
    (op : InvoiceOp) : InvoiceWF (applyInvoiceOp i op) := by
  cases op with
  | add id amt p => exact h.addTransaction id amt p
  | remove id amt p => exact h.removeTransaction id amt p

/-- Any sequence of calls preserves well-formedness. -/
theorem InvoiceWF.runOps {i : CreditCardInvoice} (h : InvoiceWF i)
    (ops : List InvoiceOp) : InvoiceWF (runInvoiceOps i ops) := by
  induction ops generalizing i with
  | nil => exact h
  | cons op ops ih => exact ih (h.applyOp op)

/-! ## Credit-card limit invariant -/

/-- Well-formedness of a card's balance bookkeeping: balance and limit are
cent amounts in one currency and the balance does not exceed the limit. -/
def CardWF (c : CreditCard) : Prop :=
  c.CurrentBalance.IsCents ∧ c.CreditLimit.IsCents ∧
  c.CurrentBalance.currency = c.CreditLimit.currency ∧
  c.CurrentBalance.amount ≤ c.CreditLimit.amount

instance (c : CreditCard) : Decidable (CardWF c) := by
  unfold CardWF; infer_instance

/-- A failing `Charge` leaves the card unchanged. -/
theorem Charge_failed_unchanged (c : CreditCard) (amount : Money)
    (h : (c.Charge amount).2 = false) : (c.Charge amount).1 = c := by
  unfold CreditCard.Charge at h ⊢
  rcases hadd : c.CurrentBalance.Add amount with _ | newBalance
  · simp only [hadd]
  · simp only [hadd] at h ⊢
    rcases hsub : c.CreditLimit.Subtract newBalance with _ | availableCredit
    · simp only [hsub]
    · simp only [hsub] at h ⊢
      by_cases hneg : availableCredit.IsNegative = true
      · rw [if_pos hneg]
      · rw [if_neg hneg] at h ⊢
        cases h

/-- A successful `Charge` leaves the new balance within the limit, and
`Charge` preserves well-formedness and never changes the limit. -/
theorem Charge_wf (c : CreditCard) (amount : Money) (h : CardWF c) :
    CardWF (c.Charge amount).1 ∧ (c.Charge amount).1.CreditLimit = c.CreditLimit := by
  obtain ⟨h1, h2, h3, h4⟩ := h
  unfold CreditCard.Charge
  rcases hadd : c.CurrentBalance.Add amount with _ | newBalance
  · simp only [hadd]
    exact ⟨⟨h1, h2, h3, h4⟩, by simp⟩
  · simp only [hadd]
    obtain ⟨hcur, hcent, _⟩ := Money.Add_some hadd
    have hsub : c.CreditLimit.Subtract newBalance =
        some ⟨c.CreditLimit.amount - newBalance.amount, c.CreditLimit.currency⟩ :=
      Money.Subtract_eq_of_cents h2 hcent ((hcur.trans h3).symm)
    simp only [hsub]
    by_cases hneg : c.CreditLimit.amount - newBalance.amount < 0
    · rw [if_pos (by simp [Money.IsNegative, hneg])]
      exact ⟨⟨h1, h2, h3, h4⟩, by simp⟩
    · rw [if_neg (by simp [Money.IsNegative, hneg])]
      exact ⟨⟨hcent, h2, hcur.trans h3, by linarith⟩, by simp⟩

/-- Any sequence of `Charge` calls preserves well-formedness and the limit. -/
theorem runCharges_wf (c : CreditCard) (amounts : List Money) (h : CardWF c) :
    CardWF (runCharges c amounts) ∧ (runCharges c amounts).CreditLimit = c.CreditLimit := by
  induction amounts generalizing c with
  | nil => exact ⟨h, rfl⟩
  | cons a amounts ih =>
    obtain ⟨hwf, hlim⟩ := Charge_wf c a h
    obtain ⟨hwf', hlim'⟩ := ih (c.Charge a).1 hwf
    exact ⟨hwf', hlim'.trans hlim⟩

/-! ## Characterisation of the rounding mode -/

/-- `roundAway` rounds to a nearest integer. -/
theorem roundAway_nearest (x : ℚ) : |x - (roundAway x : ℚ)| ≤ 1 / 2 := by
  unfold roundAway
  split
  · have h1 : (⌊x + 1 / 2⌋ : ℚ) ≤ x + 1 / 2 := Int.floor_le _
    have h2 : x + 1 / 2 < ⌊x + 1 / 2⌋ + 1 := Int.lt_floor_add_one _
    rw [abs_le]
    constructor <;> linarith
  · have h1 : x - 1 / 2 ≤ (⌈x - 1 / 2⌉ : ℚ) := Int.le_ceil _
    have h2 : (⌈x - 1 / 2⌉ : ℚ) < x - 1 / 2 + 1 := Int.ceil_lt_add_one _
    rw [abs_le]
    constructor <;> linarith

/-- When `x` sits exactly half way between two integers, `roundAway` picks the
one of larger magnitude: ties go away from zero. -/
theorem roundAway_tie (x : ℚ) (h : |x - (roundAway x : ℚ)| = 1 / 2) :
    |x| < |(roundAway x : ℚ)| := by
  unfold roundAway at h ⊢
  split at h
  case isTrue hx =>
    rw [if_pos hx]
    have h2 : x + 1 / 2 < ⌊x + 1 / 2⌋ + 1 := Int.lt_floor_add_one _
    have h3 : x - (⌊x + 1 / 2⌋ : ℚ) = -(1 / 2) := by
      rcases abs_eq (by norm_num : (0 : ℚ) ≤ 1 / 2) |>.mp h with h' | h'
      · linarith
      · exact h'
    have h4 : (⌊x + 1 / 2⌋ : ℚ) = x + 1 / 2 := by linarith
    rw [abs_of_nonneg hx, abs_of_nonneg (by linarith : (0 : ℚ) ≤ (⌊x + 1 / 2⌋ : ℚ))]
    linarith
  case isFalse hx =>
    rw [if_neg hx]
    push_neg at hx
    have h1 : x - 1 / 2 ≤ (⌈x - 1 / 2⌉ : ℚ) := Int.le_ceil _
    have h2 : (⌈x - 1 / 2⌉ : ℚ) < x - 1 / 2 + 1 := Int.ceil_lt_add_one _
    have h3 : x - (⌈x - 1 / 2⌉ : ℚ) = 1 / 2 := by
      rcases abs_eq (by norm_num : (0 : ℚ) ≤ 1 / 2) |>.mp h with h' | h'
      · exact h'
      · linarith
    have h4 : (⌈x - 1 / 2⌉ : ℚ) = x - 1 / 2 := by linarith
    rw [abs_of_neg hx, abs_of_neg (by linarith : (⌈x - 1 / 2⌉ : ℚ) < 0)]
    linarith

/-! ## Claims -/

/-- C8: the `Money` constructor rounds its amount to two decimal places with
round-half-away-from-zero — the stored amount is the nearest cent, with half
cents resolved away from zero — and in particular `NewMoney 19.995 "BRL"`
stores exactly `20.00`. -/
theorem C8_money_rounding :
    (NewMoney (19995 / 1000) "BRL").amount = 20 ∧
    ∀ q : ℚ, ∀ c : String,
      (NewMoney q c).amount = (roundAway (q * 100) : ℚ) / 100 ∧
      |q * 100 - (roundAway (q * 100) : ℚ)| ≤ 1 / 2 ∧
      (|q * 100 - (roundAway (q * 100) : ℚ)| = 1 / 2 →
        |q * 100| < |(roundAway (q * 100) : ℚ)|) := by
  refine ⟨by with_unfolding_all decide, fun q c => ⟨rfl, roundAway_nearest _, roundAway_tie _⟩⟩

/-- Witness for C8: the input `0.005` (so `q * 100 = 0.5`) achieves the tie
hypothesis, and the constructor resolves it away from zero, to one cent. -/
theorem C8_money_rounding_witness :
    |(1 / 200 : ℚ) * 100 - (roundAway ((1 / 200 : ℚ) * 100) : ℚ)| = 1 / 2 ∧
    |(1 / 200 : ℚ) * 100| < |(roundAway ((1 / 200 : ℚ) * 100) : ℚ)| :=
  ⟨by with_unfolding_all decide, (C8_money_rounding.2 (1 / 200) "BRL").2.2 (by with_unfolding_all decide)⟩

/-- A concrete credit card used by the C10 theorem: limit 1000.00 BRL, fresh
from the factory. -/
def cardC10 : CreditCard := ⟨"1234", NewMoney 1000 "BRL", NewMoney 0 "BRL", 10⟩

/-- C10: `Charge` never checks the sign of its amount: on a factory card with
limit 1000.00 BRL, charging −50.00 BRL succeeds (the available-credit check
passes) and leaves the balance strictly negative, while `Payment` of 30.00 on
that negative balance clamps the balance to zero. -/
theorem C10_negative_charge :
    NewCreditCard "1234" (NewMoney 1000 "BRL") 10 = some cardC10 ∧
    (cardC10.Charge (NewMoney (-50) "BRL")).2 = true ∧
    (cardC10.Charge (NewMoney (-50) "BRL")).1.CurrentBalance.amount < 0 ∧
    ((cardC10.Charge (NewMoney (-50) "BRL")).1.Payment (NewMoney 30 "BRL")).2 = true ∧
    ((cardC10.Charge (NewMoney (-50) "BRL")).1.Payment (NewMoney 30 "BRL")).1.CurrentBalance.amount = 0 := by
  with_unfolding_all decide

/-- C3: on any account whose cent balance minus the same-currency cent amount
is negative, `Withdraw` fails and leaves the account unchanged unless the
account is a checking account, in which case it succeeds and the balance
becomes exactly the negative difference. -/
theorem C3_overdraft_policy (a : Account) (amount : Money)
    (hb : a.Balance.IsCents) (ha : amount.IsCents)
    (hc : amount.currency = a.Balance.currency)
    (hneg : a.Balance.amount - amount.amount < 0) :
    (a.accountType ≠ AccountType.checking → a.Withdraw amount = (a, false)) ∧
    (a.accountType = AccountType.checking →
      a.Withdraw amount =
        ({ a with Balance := ⟨a.Balance.amount - amount.amount, a.Balance.currency⟩ }, true) ∧
      (a.Withdraw amount).1.Balance.IsNegative = true) := by
  have hsub : a.Balance.Subtract amount =
      some ⟨a.Balance.amount - amount.amount, a.Balance.currency⟩ :=
    Money.Subtract_eq_of_cents hb ha hc.symm
  constructor
  · intro hne
    unfold Account.Withdraw
    simp only [hsub]
    rw [if_pos ⟨by simp [Money.IsNegative, hneg], hne⟩]
  · intro hch
    have heq : a.Withdraw amount =
        ({ a with Balance := ⟨a.Balance.amount - amount.amount, a.Balance.currency⟩ }, true) := by
      unfold Account.Withdraw
      simp only [hsub]
      rw [if_neg (fun hcon => hcon.2 hch)]
    refine ⟨heq, ?_⟩
    rw [heq]
    simp [Money.IsNegative, hneg]

/-- Witness for C3: a checking account with balance 100.00 BRL and a
withdrawal of 150.00 BRL goes negative by the exact deficit. -/
theorem C3_overdraft_policy_witness :
    ((NewAccount AccountType.checking (NewMoney 100 "BRL")).Balance.IsCents ∧
      (NewMoney 150 "BRL").IsCents ∧
      (NewMoney 150 "BRL").currency =
        (NewAccount AccountType.checking (NewMoney 100 "BRL")).Balance.currency ∧
      (NewAccount AccountType.checking (NewMoney 100 "BRL")).Balance.amount -
        (NewMoney 150 "BRL").amount < 0) ∧
    ((NewAccount AccountType.checking (NewMoney 100 "BRL")).Withdraw (NewMoney 150 "BRL") =
      ({ NewAccount AccountType.checking (NewMoney 100 "BRL") with
          Balance := ⟨(NewAccount AccountType.checking (NewMoney 100 "BRL")).Balance.amount -
            (NewMoney 150 "BRL").amount,
            (NewAccount AccountType.checking (NewMoney 100 "BRL")).Balance.currency⟩ }, true) ∧
      ((NewAccount AccountType.checking (NewMoney 100 "BRL")).Withdraw
        (NewMoney 150 "BRL")).1.Balance.IsNegative = true) :=
  ⟨⟨by with_unfolding_all decide, by with_unfolding_all decide,
      by with_unfolding_all decide, by with_unfolding_all decide⟩,
    (C3_overdraft_policy _ _ (by with_unfolding_all decide) (by with_unfolding_all decide)
      (by with_unfolding_all decide) (by with_unfolding_all decide)).2 rfl⟩

/-- A factory-accepted card with a negative credit limit, for the C2
counterexample. -/
def cardNegLimit : CreditCard := ⟨"1234", NewMoney (-1) "BRL", NewMoney 0 "BRL", 10⟩

/-- Counterexample to C2 as stated: the factory accepts a negative credit
limit, and then the zero starting balance already exceeds the limit after the
empty sequence of charges. -/
theorem C2_counterexample :
    NewCreditCard "1234" (NewMoney (-1) "BRL") 10 = some cardNegLimit ∧
    runCharges cardNegLimit [] = cardNegLimit ∧
    cardNegLimit.CreditLimit.amount < cardNegLimit.CurrentBalance.amount := by
  with_unfolding_all decide

/-- C2 (amended): for a factory card with a non-negative (cent) credit limit,
the balance never exceeds the limit across any sequence of `Charge` calls,
the limit itself never changes, and — unconditionally — a failing `Charge`
leaves the card unchanged. -/
theorem C2_credit_limit_invariant (lastFourDigits : String) (creditLimit : Money)
    (dueDay : ℤ) (card : CreditCard)
    (hmk : NewCreditCard lastFourDigits creditLimit dueDay = some card)
    (hcents : creditLimit.IsCents) (hpos : 0 ≤ creditLimit.amount)
    (amounts : List Money) :
    (runCharges card amounts).CurrentBalance.amount ≤
      (runCharges card amounts).CreditLimit.amount ∧
    (runCharges card amounts).CreditLimit = creditLimit ∧
    (∀ c : CreditCard, ∀ a : Money, (c.Charge a).2 = false → (c.Charge a).1 = c) := by
  have hcard : card = ⟨lastFourDigits, creditLimit, NewMoney 0 creditLimit.currency, dueDay⟩ := by
    unfold NewCreditCard at hmk
    split_ifs at hmk
    exact (Option.some.inj hmk).symm
  have hwf : CardWF card := by
    rw [hcard]
    refine ⟨NewMoney_isCents _ _, hcents, rfl, ?_⟩
    show (NewMoney 0 creditLimit.currency).amount ≤ creditLimit.amount
    rw [NewMoney_zero]
    exact hpos
  obtain ⟨⟨-, -, -, hle⟩, hlim⟩ := runCharges_wf card amounts hwf
  refine ⟨hle, ?_, fun c a => Charge_failed_unchanged c a⟩
  rw [hlim, hcard]

/-- Witness for C2: a 100.00 BRL limit card, charged 100.01 (fails, card
unchanged) then 100.00 (succeeds to the exact limit). -/
theorem C2_credit_limit_invariant_witness :
    (NewCreditCard "1234" (NewMoney 100 "BRL") 10 =
      some ⟨"1234", NewMoney 100 "BRL", NewMoney 0 "BRL", 10⟩ ∧
      (NewMoney 100 "BRL").IsCents ∧ 0 ≤ (NewMoney 100 "BRL").amount ∧
      ((⟨"1234", NewMoney 100 "BRL", NewMoney 0 "BRL", 10⟩ : CreditCard).Charge
        (NewMoney (10001 / 100) "BRL")).2 = false) ∧
    ((runCharges ⟨"1234", NewMoney 100 "BRL", NewMoney 0 "BRL", 10⟩
        [NewMoney (10001 / 100) "BRL", NewMoney 100 "BRL"]).CurrentBalance.amount ≤
      (runCharges ⟨"1234", NewMoney 100 "BRL", NewMoney 0 "BRL", 10⟩
        [NewMoney (10001 / 100) "BRL", NewMoney 100 "BRL"]).CreditLimit.amount ∧
    (runCharges ⟨"1234", NewMoney 100 "BRL", NewMoney 0 "BRL", 10⟩
        [NewMoney (10001 / 100) "BRL", NewMoney 100 "BRL"]).CreditLimit =
      NewMoney 100 "BRL" ∧
    ((⟨"1234", NewMoney 100 "BRL", NewMoney 0 "BRL", 10⟩ : CreditCard).Charge
        (NewMoney (10001 / 100) "BRL")).1 =
      ⟨"1234", NewMoney 100 "BRL", NewMoney 0 "BRL", 10⟩) :=
  ⟨⟨by with_unfolding_all decide, by with_unfolding_all decide,
      by with_unfolding_all decide, by with_unfolding_all decide⟩,
    (C2_credit_limit_invariant "1234" (NewMoney 100 "BRL") 10 _ (by with_unfolding_all decide)
      (by with_unfolding_all decide) (by with_unfolding_all decide) _).1,
    (C2_credit_limit_invariant "1234" (NewMoney 100 "BRL") 10 _ (by with_unfolding_all decide)
      (by with_unfolding_all decide) (by with_unfolding_all decide) _).2.1,
    (C2_credit_limit_invariant "1234" (NewMoney 100 "BRL") 10
      ⟨"1234", NewMoney 100 "BRL", NewMoney 0 "BRL", 10⟩ (by with_unfolding_all decide)
      (by with_unfolding_all decide) (by with_unfolding_all decide)
      []).2.2 _ _ (by with_unfolding_all decide)⟩


/-- C1: on any well-formed invoice (as produced by the constructor), after any
sequence of `AddTransaction`/`RemoveTransaction` calls, each succeeding or
failing, the identity `ClosingBalance = PreviousBalance + TotalCharges -
TotalPayments` holds exactly and all four money fields share one currency;
and the constructor does produce a well-formed invoice from any cent-valued
previous balance. -/
theorem C1_invoice_balance_identity (i : CreditCardInvoice) (h : InvoiceWF i)
    (ops : List InvoiceOp) :
    (runInvoiceOps i ops).ClosingBalance.amount =
      (runInvoiceOps i ops).PreviousBalance.amount +
      (runInvoiceOps i ops).TotalCharges.amount -
      (runInvoiceOps i ops).TotalPayments.amount ∧
    (runInvoiceOps i ops).TotalCharges.currency =
      (runInvoiceOps i ops).PreviousBalance.currency ∧
    (runInvoiceOps i ops).TotalPayments.currency =
      (runInvoiceOps i ops).PreviousBalance.currency ∧
    (runInvoiceOps i ops).ClosingBalance.currency =
      (runInvoiceOps i ops).PreviousBalance.currency := by
  obtain ⟨-, -, -, -, c5, c6, c7, c8⟩ := h.runOps ops
  exact ⟨c8, c5, c6, c7⟩

/-- The invoice used by the C1 witness: previous balance 100.00 BRL. -/
def invC1 : CreditCardInvoice := NewCreditCardInvoice (NewMoney 100 "BRL")

/-- The call sequence used by the C1 witness: a charge, a payment, a
currency-mismatched charge that fails, a removal, and a removal of an absent
ID that fails. -/
def opsC1 : List InvoiceOp :=
  [InvoiceOp.add 1 (NewMoney 100 "BRL") false,
   InvoiceOp.add 2 (NewMoney 40 "BRL") true,
   InvoiceOp.add 3 (NewMoney 5 "USD") false,
   InvoiceOp.remove 2 (NewMoney 40 "BRL") true,
   InvoiceOp.remove 9 (NewMoney 1 "BRL") false]

/-- Witness for C1: the constructor's invoice is well-formed and the balance
identity survives a mixed succeeding/failing call sequence. -/
theorem C1_invoice_balance_identity_witness :
    InvoiceWF invC1 ∧
    ((runInvoiceOps invC1 opsC1).ClosingBalance.amount =
      (runInvoiceOps invC1 opsC1).PreviousBalance.amount +
      (runInvoiceOps invC1 opsC1).TotalCharges.amount -
      (runInvoiceOps invC1 opsC1).TotalPayments.amount ∧
    (runInvoiceOps invC1 opsC1).TotalCharges.currency =
      (runInvoiceOps invC1 opsC1).PreviousBalance.currency ∧
    (runInvoiceOps invC1 opsC1).TotalPayments.currency =
      (runInvoiceOps invC1 opsC1).PreviousBalance.currency ∧
    (runInvoiceOps invC1 opsC1).ClosingBalance.currency =
      (runInvoiceOps invC1 opsC1).PreviousBalance.currency) :=
  ⟨by with_unfolding_all decide,
    C1_invoice_balance_identity invC1 (by with_unfolding_all decide) opsC1⟩

/-- The invoice used by the C5 counterexample: open, all fields BRL. -/
def invC5 : CreditCardInvoice := NewCreditCardInvoice (NewMoney 100 "BRL")

/-- Counterexample to C5 as stated: on an open all-BRL invoice, adding a
transaction with a USD amount returns an error, yet the invoice is not left
entirely unchanged — the transaction ID has already been appended to
`TransactionIDs` when the money arithmetic fails. -/
theorem C5_counterexample :
    invC5.Status = InvoiceStatus.Open ∧
    (invC5.AddTransaction 1 (NewMoney 5 "USD") false).2 = false ∧
    (invC5.AddTransaction 1 (NewMoney 5 "USD") false).1.TransactionIDs ≠
      invC5.TransactionIDs := by
  with_unfolding_all decide

/-- Under matching field currencies, `recalculateBalance` always succeeds. -/
theorem recalculateBalance_isSome (pb tc tp cb : Money) (st : InvoiceStatus)
    (ids : List ℕ) (hcc : tc.currency = pb.currency)
    (hpc : tp.currency = pb.currency) :
    ∃ j, (CreditCardInvoice.mk pb tc tp cb st ids).recalculateBalance = some j := by
  have h1 : Money.Add pb tc = some (NewMoney (pb.amount + tc.amount) pb.currency) := by
    unfold Money.Add
    rw [if_neg (by simp [hcc])]
  have h2 : Money.Subtract (NewMoney (pb.amount + tc.amount) pb.currency) tp =
      some (NewMoney ((NewMoney (pb.amount + tc.amount) pb.currency).amount - tp.amount)
        pb.currency) := by
    unfold Money.Subtract
    rw [if_neg (by simp [NewMoney, hpc])]
    rfl
  exact ⟨CreditCardInvoice.mk pb tc tp
    (NewMoney ((NewMoney (pb.amount + tc.amount) pb.currency).amount - tp.amount) pb.currency)
    st ids, by simp only [CreditCardInvoice.recalculateBalance, h1, h2]⟩

/-- C5 (amended): on an invoice whose charge and payment totals share the
previous balance's currency, an erroring `AddTransaction` or
`RemoveTransaction` leaves `TotalCharges`, `TotalPayments` and
`ClosingBalance` at their pre-call values — but not `TransactionIDs`, which
the counterexample shows is mutated before the failing arithmetic. -/
theorem C5_error_money_unchanged (i : CreditCardInvoice)
    (hcc : i.TotalCharges.currency = i.PreviousBalance.currency)
    (hpc : i.TotalPayments.currency = i.PreviousBalance.currency)
    (transactionID : ℕ) (amount : Money) (isPayment : Bool) :
    ((i.AddTransaction transactionID amount isPayment).2 = false →
      (i.AddTransaction transactionID amount isPayment).1.TotalCharges = i.TotalCharges ∧
      (i.AddTransaction transactionID amount isPayment).1.TotalPayments = i.TotalPayments ∧
      (i.AddTransaction transactionID amount isPayment).1.ClosingBalance = i.ClosingBalance) ∧
    ((i.RemoveTransaction transactionID amount isPayment).2 = false →
      (i.RemoveTransaction transactionID amount isPayment).1.TotalCharges = i.TotalCharges ∧
      (i.RemoveTransaction transactionID amount isPayment).1.TotalPayments = i.TotalPayments ∧
      (i.RemoveTransaction transactionID amount isPayment).1.ClosingBalance = i.ClosingBalance) := by
  constructor
  · unfold CreditCardInvoice.AddTransaction
    by_cases hs : i.Status ≠ InvoiceStatus.Open
    · rw [if_pos hs]
      exact fun _ => ⟨rfl, rfl, rfl⟩
    · rw [if_neg hs]
      by_cases hp : isPayment
      · rw [if_pos hp]
        rcases hadd : (Money.Add i.TotalPayments amount) with _ | newPayments
        · simp only [hadd]
          refine fun _ => ⟨?_, ?_, ?_⟩ <;> simp
        · simp only [hadd]
          obtain ⟨hcur, -, -⟩ := Money.Add_some hadd
          obtain ⟨j, hj⟩ := recalculateBalance_isSome i.PreviousBalance i.TotalCharges
            newPayments i.ClosingBalance i.Status (i.TransactionIDs ++ [transactionID])
            hcc (hcur.trans hpc)
          simp only [hj]
          intro hfalse
          cases hfalse
      · rw [if_neg hp]
        rcases hadd : (Money.Add i.TotalCharges amount) with _ | newCharges
        · simp only [hadd]
          refine fun _ => ⟨?_, ?_, ?_⟩ <;> simp
        · simp only [hadd]
          obtain ⟨hcur, -, -⟩ := Money.Add_some hadd
          obtain ⟨j, hj⟩ := recalculateBalance_isSome i.PreviousBalance newCharges
            i.TotalPayments i.ClosingBalance i.Status (i.TransactionIDs ++ [transactionID])
            (hcur.trans hcc) hpc
          simp only [hj]
          intro hfalse
          cases hfalse
  · unfold CreditCardInvoice.RemoveTransaction
    by_cases hs : i.Status ≠ InvoiceStatus.Open
    · rw [if_pos hs]
      exact fun _ => ⟨rfl, rfl, rfl⟩
    · rw [if_neg hs]
      by_cases hf : ¬ i.TransactionIDs.contains transactionID
      · rw [if_pos hf]
        exact fun _ => ⟨rfl, rfl, rfl⟩
      · rw [if_neg hf]
        by_cases hp : isPayment
        · rw [if_pos hp]
          rcases hsub : (Money.Subtract i.TotalPayments amount) with _ | newPayments
          · simp only [hsub]
            refine fun _ => ⟨?_, ?_, ?_⟩ <;> simp
          · simp only [hsub]
            obtain ⟨hcur, -, -⟩ := Money.Subtract_some hsub
            obtain ⟨j, hj⟩ := recalculateBalance_isSome i.PreviousBalance i.TotalCharges
              newPayments i.ClosingBalance i.Status
              (i.TransactionIDs.filter (fun id => id ≠ transactionID))
              hcc (hcur.trans hpc)
            simp only [hj]
            intro hfalse
            cases hfalse
        · rw [if_neg hp]
          rcases hsub : (Money.Subtract i.TotalCharges amount) with _ | newCharges
          · simp only [hsub]
            refine fun _ => ⟨?_, ?_, ?_⟩ <;> simp
          · simp only [hsub]
            obtain ⟨hcur, -, -⟩ := Money.Subtract_some hsub
            obtain ⟨j, hj⟩ := recalculateBalance_isSome i.PreviousBalance newCharges
              i.TotalPayments i.ClosingBalance i.Status
              (i.TransactionIDs.filter (fun id => id ≠ transactionID))
              (hcur.trans hcc) hpc
            simp only [hj]
            intro hfalse
            cases hfalse

/-- The invoice used by the C5 witness. -/
def invC5w : CreditCardInvoice := NewCreditCardInvoice (NewMoney 100 "BRL")

/-- Witness for C5 (amended): the failing USD `AddTransaction` on the BRL
invoice leaves the three money fields unchanged. -/
theorem C5_error_money_unchanged_witness :
    (invC5w.TotalCharges.currency = invC5w.PreviousBalance.currency ∧
      invC5w.TotalPayments.currency = invC5w.PreviousBalance.currency ∧
      (invC5w.AddTransaction 1 (NewMoney 5 "USD") false).2 = false) ∧
    ((invC5w.AddTransaction 1 (NewMoney 5 "USD") false).1.TotalCharges = invC5w.TotalCharges ∧
      (invC5w.AddTransaction 1 (NewMoney 5 "USD") false).1.TotalPayments = invC5w.TotalPayments ∧
      (invC5w.AddTransaction 1 (NewMoney 5 "USD") false).1.ClosingBalance = invC5w.ClosingBalance) :=
  ⟨⟨by with_unfolding_all decide, by with_unfolding_all decide, by with_unfolding_all decide⟩,
    (C5_error_money_unchanged invC5w (by with_unfolding_all decide)
      (by with_unfolding_all decide) 1 (NewMoney 5 "USD") false).1
      (by with_unfolding_all decide)⟩

theorem sum_map_const (l : List ℕ) (c : ℚ) : (l.map fun _ => c).sum = l.length * c := by
  induction l with
  | nil => simp
  | cons x xs ih => simp [ih]; ring

/-- The transaction used by C7's concrete part: amount 100.00 BRL. -/
def txnC7 : Transaction :=
  NewTransaction none (some 7) TransactionType.debit (NewMoney 100 "BRL")

/-- C7: `SplitEqually` on a non-empty list of `n` person IDs replaces the
shares with exactly one share of `50 / n` percent per person, each share
amount being the transaction amount multiplied (under `Money.Multiply`) by
`(50 / n) / 100`; `GetPersonalAmount` then returns the 50% share of the
amount regardless of `n`; the empty list fails; and on 100.00 the two-person
split yields two 25.00 shares and a personal amount of 50.00. -/
theorem C7_split_equally (t : Transaction) (personIDs : List ℕ)
    (h : personIDs ≠ []) :
    (t.SplitEqually personIDs).2 = true ∧
    (t.SplitEqually personIDs).1.SharedWith = (personIDs.map fun personID =>
      SharedExpense.mk personID
        (t.Amount.Multiply ((50 / (personIDs.length : ℚ)) / 100))
        (50 / (personIDs.length : ℚ))) ∧
    (t.SplitEqually personIDs).1.GetPersonalAmount = t.Amount.Multiply (50 / 100) ∧
    (t.SplitEqually ([] : List ℕ)).2 = false ∧
    (txnC7.SplitEqually [1, 2]).1.SharedWith =
      [⟨1, ⟨25, "BRL"⟩, 25⟩, ⟨2, ⟨25, "BRL"⟩, 25⟩] ∧
    (txnC7.SplitEqually [1, 2]).1.GetPersonalAmount = ⟨50, "BRL"⟩ := by
  have hlen : personIDs.length ≠ 0 := fun hl => h (List.length_eq_zero.mp hl)
  have hlen' : (personIDs.length : ℚ) ≠ 0 := Nat.cast_ne_zero.mpr hlen
  have hsplit : t.SplitEqually personIDs =
      ({ t with SharedWith := personIDs.map (fun personID =>
          SharedExpense.mk personID
            (t.Amount.Multiply ((50 / (personIDs.length : ℚ)) / 100))
            (50 / (personIDs.length : ℚ))) }, true) := by
    unfold Transaction.SplitEqually
    rw [if_neg hlen]
  refine ⟨by rw [hsplit], by rw [hsplit], ?_, rfl,
    by with_unfolding_all decide, by with_unfolding_all decide⟩
  rw [hsplit]
  unfold Transaction.GetPersonalAmount
  have hsum : (((personIDs.map fun personID =>
      SharedExpense.mk personID
        (t.Amount.Multiply ((50 / (personIDs.length : ℚ)) / 100))
        (50 / (personIDs.length : ℚ))).map SharedExpense.Percentage)).sum = 50 := by
    rw [List.map_map]
    have hc : (SharedExpense.Percentage ∘ fun personID =>
        SharedExpense.mk personID
          (t.Amount.Multiply ((50 / (personIDs.length : ℚ)) / 100))
          (50 / (personIDs.length : ℚ))) = fun _ => (50 / (personIDs.length : ℚ)) := rfl
    rw [hc, sum_map_const]
    field_simp
  simp only [hsum]
  norm_num

/-- Witness for C7: the two-person split of the 100.00 BRL transaction. -/
theorem C7_split_equally_witness :
    (([1, 2] : List ℕ) ≠ []) ∧
    ((txnC7.SplitEqually [1, 2]).2 = true ∧
      (txnC7.SplitEqually [1, 2]).1.SharedWith = (([1, 2] : List ℕ).map fun personID =>
        SharedExpense.mk personID
          (txnC7.Amount.Multiply ((50 / (([1, 2] : List ℕ).length : ℚ)) / 100))
          (50 / (([1, 2] : List ℕ).length : ℚ))) ∧
      (txnC7.SplitEqually [1, 2]).1.GetPersonalAmount = txnC7.Amount.Multiply (50 / 100) ∧
      (txnC7.SplitEqually ([] : List ℕ)).2 = false ∧
      (txnC7.SplitEqually [1, 2]).1.SharedWith =
        [⟨1, ⟨25, "BRL"⟩, 25⟩, ⟨2, ⟨25, "BRL"⟩, 25⟩] ∧
      (txnC7.SplitEqually [1, 2]).1.GetPersonalAmount = ⟨50, "BRL"⟩) :=
  ⟨by with_unfolding_all decide, C7_split_equally txnC7 [1, 2] (by with_unfolding_all decide)⟩

/-- The bill used by the C9 counterexample: total 100.00 BRL, dates 0/0/10. -/
def billC9 : Bill := ⟨0, 0, 10, NewMoney 100 "BRL", NewMoney 0 "BRL", BillStatus.Open⟩

/-- Counterexample to C9 as stated: pay the bill exactly (status becomes
`paid`), then overpay by 1.00 before the due date — the payment succeeds and
`PaidAmount` strictly exceeds `TotalAmount`, yet the status is still `paid`:
the amounts are unequal, so the `paid` branch of `updateStatus` is not taken,
and with the due date not yet passed the `overdue` branch is not taken
either, leaving the prior `paid` status in place. -/
theorem C9_counterexample :
    NewBill 0 0 10 (NewMoney 100 "BRL") = some billC9 ∧
    (billC9.AddPayment (NewMoney 100 "BRL") 5).1.Status = BillStatus.Paid ∧
    (((billC9.AddPayment (NewMoney 100 "BRL") 5).1.AddPayment (NewMoney 1 "BRL") 5)).2 = true ∧
    (((billC9.AddPayment (NewMoney 100 "BRL") 5).1.AddPayment
      (NewMoney 1 "BRL") 5)).1.TotalAmount.amount <
      (((billC9.AddPayment (NewMoney 100 "BRL") 5).1.AddPayment
        (NewMoney 1 "BRL") 5)).1.PaidAmount.amount ∧
    (((billC9.AddPayment (NewMoney 100 "BRL") 5).1.AddPayment
      (NewMoney 1 "BRL") 5)).1.Status = BillStatus.Paid := by
  with_unfolding_all decide

/-- `updateStatus` changes only the status, and reaches `paid` only from an
exact paid/total match or a bill already paid. -/
theorem updateStatus_fields (b : Bill) (now : ℤ) :
    (b.updateStatus now).PaidAmount = b.PaidAmount ∧
    (b.updateStatus now).TotalAmount = b.TotalAmount ∧
    ((b.updateStatus now).Status = BillStatus.Paid →
      b.PaidAmount.Equals b.TotalAmount = true ∨ b.Status = BillStatus.Paid) := by
  unfold Bill.updateStatus
  split_ifs with hpaid hover
  · exact ⟨rfl, rfl, fun _ => Or.inl hpaid⟩
  · exact ⟨rfl, rfl, fun hcon => absurd hcon (by simp)⟩
  · exact ⟨rfl, rfl, fun hs => Or.inr hs⟩

/-- C9 (amended): a same-currency cent payment that makes `PaidAmount`
strictly exceed `TotalAmount` succeeds and accumulates exactly; afterwards
`IsFullyPaid` is false and `GetRemainingAmount` is strictly negative (the
paid transition requires exact equality); and the resulting status is not
`paid` provided the bill was not already `paid` — the counterexample shows an
already-paid bill, overpaid before its due date, keeping the `paid`
status. -/
theorem C9_overpayment (b : Bill) (amount : Money) (now : ℤ)
    (h1 : b.PaidAmount.IsCents) (h2 : b.TotalAmount.IsCents) (h3 : amount.IsCents)
    (hc : amount.currency = b.PaidAmount.currency)
    (hct : b.TotalAmount.currency = b.PaidAmount.currency)
    (hover : b.TotalAmount.amount < b.PaidAmount.amount + amount.amount) :
    (b.AddPayment amount now).2 = true ∧
    (b.AddPayment amount now).1.PaidAmount.amount =
      b.PaidAmount.amount + amount.amount ∧
    (b.AddPayment amount now).1.IsFullyPaid = false ∧
    (b.AddPayment amount now).1.GetRemainingAmount =
      some ⟨b.TotalAmount.amount - (b.PaidAmount.amount + amount.amount),
        b.TotalAmount.currency⟩ ∧
    b.TotalAmount.amount - (b.PaidAmount.amount + amount.amount) < 0 ∧
    (b.Status ≠ BillStatus.Paid →
      (b.AddPayment amount now).1.Status ≠ BillStatus.Paid) := by
  have hadd : b.PaidAmount.Add amount =
      some ⟨b.PaidAmount.amount + amount.amount, b.PaidAmount.currency⟩ :=
    Money.Add_eq_of_cents h1 h3 hc.symm
  have heq : b.AddPayment amount now =
      (Bill.updateStatus { b with
        PaidAmount := ⟨b.PaidAmount.amount + amount.amount, b.PaidAmount.currency⟩ } now,
        true) := by
    unfold Bill.AddPayment
    rw [hadd]
  obtain ⟨hf1, hf2, hf3⟩ := updateStatus_fields
    { b with PaidAmount := ⟨b.PaidAmount.amount + amount.amount, b.PaidAmount.currency⟩ } now
  have hne : b.PaidAmount.amount + amount.amount ≠ b.TotalAmount.amount :=
    ne_of_gt hover
  refine ⟨by rw [heq], by rw [heq, hf1], ?_, ?_, by linarith, ?_⟩
  · rw [heq]
    show ((Bill.updateStatus _ now).PaidAmount.Equals (Bill.updateStatus _ now).TotalAmount) = false
    rw [hf1, hf2]
    simp [Money.Equals, hne]
  · rw [heq]
    show ((Bill.updateStatus _ now).TotalAmount.Subtract (Bill.updateStatus _ now).PaidAmount) = _
    rw [hf1, hf2]
    have hcents : (⟨b.PaidAmount.amount + amount.amount, b.PaidAmount.currency⟩ : Money).IsCents :=
      isCents_add h1 h3
    exact Money.Subtract_eq_of_cents h2 hcents hct
  · intro hstat hcon
    rw [heq] at hcon
    rcases hf3 hcon with hp | hp
    · rw [show ({ b with PaidAmount := (⟨b.PaidAmount.amount + amount.amount,
        b.PaidAmount.currency⟩ : Money) } : Bill).PaidAmount.Equals
        ({ b with PaidAmount := (⟨b.PaidAmount.amount + amount.amount,
          b.PaidAmount.currency⟩ : Money) } : Bill).TotalAmount = false
        from by simp [Money.Equals, hne]] at hp
      cases hp
    · exact hstat hp

/-- The bill used by the C9 witness: an open 100.00 BRL bill, paid 0. -/
def billC9w : Bill := ⟨0, 0, 10, NewMoney 100 "BRL", NewMoney 0 "BRL", BillStatus.Open⟩

/-- Witness for C9 (amended): overpaying the open bill with 150.00 BRL. -/
theorem C9_overpayment_witness :
    (billC9w.PaidAmount.IsCents ∧ billC9w.TotalAmount.IsCents ∧
      (NewMoney 150 "BRL").IsCents ∧
      (NewMoney 150 "BRL").currency = billC9w.PaidAmount.currency ∧
      billC9w.TotalAmount.currency = billC9w.PaidAmount.currency ∧
      billC9w.TotalAmount.amount < billC9w.PaidAmount.amount + (NewMoney 150 "BRL").amount) ∧
    ((billC9w.AddPayment (NewMoney 150 "BRL") 5).2 = true ∧
      (billC9w.AddPayment (NewMoney 150 "BRL") 5).1.PaidAmount.amount =
        billC9w.PaidAmount.amount + (NewMoney 150 "BRL").amount ∧
      (billC9w.AddPayment (NewMoney 150 "BRL") 5).1.IsFullyPaid = false ∧
      (billC9w.AddPayment (NewMoney 150 "BRL") 5).1.GetRemainingAmount =
        some ⟨billC9w.TotalAmount.amount -
          (billC9w.PaidAmount.amount + (NewMoney 150 "BRL").amount),
          billC9w.TotalAmount.currency⟩ ∧
      billC9w.TotalAmount.amount -
        (billC9w.PaidAmount.amount + (NewMoney 150 "BRL").amount) < 0 ∧
      (billC9w.AddPayment (NewMoney 150 "BRL") 5).1.Status ≠ BillStatus.Paid) :=
  ⟨⟨by with_unfolding_all decide, by with_unfolding_all decide, by with_unfolding_all decide,
      by with_unfolding_all decide, by with_unfolding_all decide, by with_unfolding_all decide⟩,
    (C9_overpayment billC9w (NewMoney 150 "BRL") 5 (by with_unfolding_all decide)
      (by with_unfolding_all decide) (by with_unfolding_all decide)
      (by with_unfolding_all decide) (by with_unfolding_all decide)
      (by with_unfolding_all decide)).1,
    (C9_overpayment billC9w (NewMoney 150 "BRL") 5 (by with_unfolding_all decide)
      (by with_unfolding_all decide) (by with_unfolding_all decide)
      (by with_unfolding_all decide) (by with_unfolding_all decide)
      (by with_unfolding_all decide)).2.1,
    (C9_overpayment billC9w (NewMoney 150 "BRL") 5 (by with_unfolding_all decide)
      (by with_unfolding_all decide) (by with_unfolding_all decide)
      (by with_unfolding_all decide) (by with_unfolding_all decide)
      (by with_unfolding_all decide)).2.2.1,
    (C9_overpayment billC9w (NewMoney 150 "BRL") 5 (by with_unfolding_all decide)
      (by with_unfolding_all decide) (by with_unfolding_all decide)
      (by with_unfolding_all decide) (by with_unfolding_all decide)
      (by with_unfolding_all decide)).2.2.2.1,
    (C9_overpayment billC9w (NewMoney 150 "BRL") 5 (by with_unfolding_all decide)
      (by with_unfolding_all decide) (by with_unfolding_all decide)
      (by with_unfolding_all decide) (by with_unfolding_all decide)
      (by with_unfolding_all decide)).2.2.2.2.1,
    (C9_overpayment billC9w (NewMoney 150 "BRL") 5 (by with_unfolding_all decide)
      (by with_unfolding_all decide) (by with_unfolding_all decide)
      (by with_unfolding_all decide) (by with_unfolding_all decide)
      (by with_unfolding_all decide)).2.2.2.2.2 (by with_unfolding_all decide)⟩

/-- The repository environment used by the C6 counterexample: the lookups
find a checking account with 1000.00 BRL and a 1000.00-limit card, and every
store write and best-effort step succeeds. -/
def envC6 : Env :=
  ⟨fun _ => some (NewAccount AccountType.checking (NewMoney 1000 "BRL")),
   fun _ => some ⟨"1234", NewMoney 1000 "BRL", NewMoney 0 "BRL", 10⟩,
   true, true, true, Except.ok 99, Except.ok (some 77), true⟩

/-- Counterexample to C6 as stated: `CreateTransaction` performs no
mutual-exclusion check — a call supplying BOTH an account ID and a card ID
succeeds, persists a transaction with both identifiers populated (debiting
both the account and the card), and a call supplying NEITHER also succeeds
and persists a transaction with neither identifier. -/
theorem C6_counterexample :
    (CreateTransaction envC6 (some 1) (some 2) TransactionType.debit 10 "BRL").result =
      Except.ok ⟨some 1, some 2, some 99, some 77, TransactionType.debit,
        NewMoney 10 "BRL", []⟩ ∧
    (CreateTransaction envC6 (some 1) (some 2) TransactionType.debit 10 "BRL").persistedTxn =
      some ⟨some 1, some 2, some 99, some 77, TransactionType.debit,
        NewMoney 10 "BRL", []⟩ ∧
    (CreateTransaction envC6 none none TransactionType.debit 10 "BRL").result =
      Except.ok ⟨none, none, none, some 77, TransactionType.debit,
        NewMoney 10 "BRL", []⟩ := by
  refine ⟨?_, ?_, ?_⟩ <;> with_unfolding_all rfl

/-- Steps (4)-(5) never change the source identifiers of the transaction. -/
theorem createAfterCard_ids (env : Env) (savedAccount : Option Account)
    (savedCard : Option CreditCard) (transaction : Transaction) (t : Transaction)
    (h : (createAfterCard env savedAccount savedCard transaction).result = Except.ok t) :
    t.AccountID = transaction.AccountID ∧ t.CreditCardID = transaction.CreditCardID := by
  unfold createAfterCard at h
  rcases hb : env.billAssign with e | ob <;> rw [hb] at h
  · by_cases hc : env.txnCreateOk
    · rw [if_pos hc] at h
      cases h
      exact ⟨rfl, rfl⟩
    · rw [if_neg hc] at h
      cases h
  · rcases ob with _ | billID
    · by_cases hc : env.txnCreateOk
      · rw [if_pos hc] at h
        cases h
        exact ⟨rfl, rfl⟩
      · rw [if_neg hc] at h
        cases h
    · by_cases hc : env.txnCreateOk
      · rw [if_pos hc] at h
        cases h
        exact ⟨rfl, rfl⟩
      · rw [if_neg hc] at h
        cases h

/-- Step (3) never changes the source identifiers of the transaction. -/
theorem createCardStep_ids (env : Env) (savedAccount : Option Account)
    (creditCardID : Option ℕ) (transaction : Transaction) (money : Money)
    (transactionType : TransactionType) (t : Transaction)
    (h : (createCardStep env savedAccount creditCardID transaction money
      transactionType).result = Except.ok t) :
    t.AccountID = transaction.AccountID ∧ t.CreditCardID = transaction.CreditCardID := by
  rcases creditCardID with _ | cid
  · exact createAfterCard_ids _ _ _ _ _ h
  · rcases hf : env.findCard cid with _ | card
    · simp only [createCardStep, hf] at h
      cases h
    · simp only [createCardStep, hf] at h
      by_cases hstep : (if transactionType = TransactionType.debit
          then card.Charge money else card.Payment money).2 = false
      · rw [if_pos hstep] at h
        cases h
      · rw [if_neg hstep] at h
        by_cases hupd : env.cardUpdateOk = false
        · rw [if_pos hupd] at h
          cases h
        · rw [if_neg hupd] at h
          by_cases hinv : env.hasInvoiceRepo <;>
            [rw [if_pos hinv] at h; rw [if_neg hinv] at h]
          · rcases ha : env.invoiceAssign with e | invoiceID <;> rw [ha] at h
            · obtain ⟨h1, h2⟩ := createAfterCard_ids _ _ _ _ _ h
              exact ⟨h1, h2⟩
            · obtain ⟨h1, h2⟩ := createAfterCard_ids _ _ _ _ _ h
              exact ⟨h1, h2⟩
          · obtain ⟨h1, h2⟩ := createAfterCard_ids _ _ _ _ _ h
            exact ⟨h1, h2⟩

/-- C6 (amended): the orchestration layer performs no validation of the
account/card identifiers; a successful `CreateTransaction` returns (and
persists) a transaction whose `AccountID` and `CreditCardID` are exactly the
caller's two arguments, whatever combination — both, one, or neither — was
supplied.  The counterexample exhibits both-populated and neither-populated
transactions being created. -/
theorem C6_ids_passthrough (env : Env) (accountID creditCardID : Option ℕ)
    (transactionType : TransactionType) (amount : ℚ) (currency : String)
    (t : Transaction)
    (h : (CreateTransaction env accountID creditCardID transactionType amount
      currency).result = Except.ok t) :
    t.AccountID = accountID ∧ t.CreditCardID = creditCardID := by
  rcases accountID with _ | aid
  · exact createCardStep_ids _ _ _ _ _ _ _ h
  · rcases hf : env.findAccount aid with _ | account
    · simp only [CreateTransaction, hf] at h
      cases h
    · simp only [CreateTransaction, hf] at h
      by_cases hstep : (if transactionType = TransactionType.debit
          then account.Withdraw (NewMoney amount currency)
          else account.Deposit (NewMoney amount currency)).2 = false
      · rw [if_pos hstep] at h
        cases h
      · rw [if_neg hstep] at h
        by_cases hupd : env.accountUpdateOk = false
        · rw [if_pos hupd] at h
          cases h
        · rw [if_neg hupd] at h
          obtain ⟨h1, h2⟩ := createCardStep_ids _ _ _ _ _ _ _ h
          exact ⟨h1, h2⟩

/-- Witness for C6 (amended): the both-identifiers call of the
counterexample's environment. -/
theorem C6_ids_passthrough_witness :
    ((CreateTransaction envC6 (some 1) (some 2) TransactionType.debit 10 "BRL").result =
      Except.ok ⟨some 1, some 2, some 99, some 77, TransactionType.debit,
        NewMoney 10 "BRL", []⟩) ∧
    ((⟨some 1, some 2, some 99, some 77, TransactionType.debit,
        NewMoney 10 "BRL", []⟩ : Transaction).AccountID = some 1 ∧
      (⟨some 1, some 2, some 99, some 77, TransactionType.debit,
        NewMoney 10 "BRL", []⟩ : Transaction).CreditCardID = some 2) :=
  ⟨by with_unfolding_all rfl,
    C6_ids_passthrough envC6 (some 1) (some 2) TransactionType.debit 10 "BRL" _
      (by with_unfolding_all rfl)⟩

/-- C4: in the card-sourced creation workflow, once the charge (or payment)
and the card store write have succeeded, the returned outcome is a success
whatever the invoice-assignment oracle produced — in particular when it (and
likewise the bill-assignment oracle, which is left arbitrary here) fails: the
transaction is still persisted and returned without error, and the committed
card balance update is not rolled back. -/
theorem C4_best_effort_swallow (env : Env) (cid : ℕ) (card : CreditCard)
    (transactionType : TransactionType) (amount : ℚ) (currency : String) (e : String)
    (hfind : env.findCard cid = some card)
    (hstep : (if transactionType = TransactionType.debit
        then card.Charge (NewMoney amount currency)
        else card.Payment (NewMoney amount currency)).2 = true)
    (hupd : env.cardUpdateOk = true)
    (hinv : env.hasInvoiceRepo = true)
    (hassign : env.invoiceAssign = Except.error e)
    (hcreate : env.txnCreateOk = true) :
    (CreateTransaction env none (some cid) transactionType amount currency).result =
      Except.ok (match env.billAssign with
        | Except.ok (some billID) =>
          { NewTransaction none (some cid) transactionType (NewMoney amount currency)
              with BillID := some billID }
        | _ => NewTransaction none (some cid) transactionType (NewMoney amount currency)) ∧
    (CreateTransaction env none (some cid) transactionType amount currency).persistedTxn =
      some (match env.billAssign with
        | Except.ok (some billID) =>
          { NewTransaction none (some cid) transactionType (NewMoney amount currency)
              with BillID := some billID }
        | _ => NewTransaction none (some cid) transactionType (NewMoney amount currency)) ∧
    (CreateTransaction env none (some cid) transactionType amount currency).savedCard =
      some (if transactionType = TransactionType.debit
        then card.Charge (NewMoney amount currency)
        else card.Payment (NewMoney amount currency)).1 := by
  simp only [CreateTransaction, createCardStep, hfind]
  rw [if_neg (by simp [hstep])]
  rw [if_neg (by simp [hupd])]
  rw [if_pos hinv]
  simp only [hassign]
  unfold createAfterCard
  rcases hb : env.billAssign with e2 | ob
  · simp only [hb, hcreate, if_true]
    refine ⟨?_, ?_, ?_⟩ <;> simp
  · rcases ob with _ | billID <;> simp only [hb, hcreate, if_true]
    · refine ⟨?_, ?_, ?_⟩ <;> simp
    · refine ⟨?_, ?_, ?_⟩ <;> simp

/-- The repository environment used by the C4 witness: the card lookup finds
a 1000.00 BRL limit card, the card write succeeds, and BOTH best-effort
steps — invoice assignment and bill assignment — fail. -/
def envC4 : Env :=
  ⟨fun _ => none,
   fun _ => some ⟨"1234", NewMoney 1000 "BRL", NewMoney 0 "BRL", 10⟩,
   true, true, true, Except.error "invoice repository unavailable",
   Except.error "bill repository unavailable", true⟩

/-- Witness for C4: a 10.00 BRL debit on the card-sourced path with both
best-effort steps failing still returns and persists the transaction, with
the charged card committed. -/
theorem C4_best_effort_swallow_witness :
    (envC4.findCard 2 = some ⟨"1234", NewMoney 1000 "BRL", NewMoney 0 "BRL", 10⟩ ∧
      (if TransactionType.debit = TransactionType.debit
        then (⟨"1234", NewMoney 1000 "BRL", NewMoney 0 "BRL", 10⟩ : CreditCard).Charge
          (NewMoney 10 "BRL")
        else (⟨"1234", NewMoney 1000 "BRL", NewMoney 0 "BRL", 10⟩ : CreditCard).Payment
          (NewMoney 10 "BRL")).2 = true ∧
      envC4.cardUpdateOk = true ∧ envC4.hasInvoiceRepo = true ∧
      envC4.invoiceAssign = Except.error "invoice repository unavailable" ∧
      envC4.txnCreateOk = true) ∧
    ((CreateTransaction envC4 none (some 2) TransactionType.debit 10 "BRL").result =
      Except.ok (match envC4.billAssign with
        | Except.ok (some billID) =>
          { NewTransaction none (some 2) TransactionType.debit (NewMoney 10 "BRL")
              with BillID := some billID }
        | _ => NewTransaction none (some 2) TransactionType.debit (NewMoney 10 "BRL")) ∧
    (CreateTransaction envC4 none (some 2) TransactionType.debit 10 "BRL").persistedTxn =
      some (match envC4.billAssign with
        | Except.ok (some billID) =>
          { NewTransaction none (some 2) TransactionType.debit (NewMoney 10 "BRL")
              with BillID := some billID }
        | _ => NewTransaction none (some 2) TransactionType.debit (NewMoney 10 "BRL")) ∧
    (CreateTransaction envC4 none (some 2) TransactionType.debit 10 "BRL").savedCard =
      some (if TransactionType.debit = TransactionType.debit
        then (⟨"1234", NewMoney 1000 "BRL", NewMoney 0 "BRL", 10⟩ : CreditCard).Charge
          (NewMoney 10 "BRL")
        else (⟨"1234", NewMoney 1000 "BRL", NewMoney 0 "BRL", 10⟩ : CreditCard).Payment
          (NewMoney 10 "BRL")).1) :=
  ⟨⟨rfl, by with_unfolding_all decide, rfl, rfl, rfl, rfl⟩,
    C4_best_effort_swallow envC4 2 ⟨"1234", NewMoney 1000 "BRL", NewMoney 0 "BRL", 10⟩
      TransactionType.debit 10 "BRL" "invoice repository unavailable" rfl
      (by with_unfolding_all decide) rfl rfl rfl rfl⟩

end FinanCLI
